import Mathlib

/-!
Shallow embedding of the analysis core of the `canva-app-reviewer` backend:
the analysis orchestrator (`app/core/analysis_orchestrator.py`), the base
analyzer scoring rule (`app/core/analyzers/base_analyzer.py`), and the
background-task progress tracking (`app/api/v1/analyze.py`).

Python dictionaries that carry a fixed set of keys are embedded as
structures; dictionaries iterated in insertion order are embedded as
association lists in that order.  Python floats are binary64: a float value
is embedded as the exact rational it holds, every float operation rounds its
exact result through `fl` (round to 53 bits, nearest, ties to even), and a
decimal literal such as `0.30` denotes `fl (30 / 100)`.  Where the float
arithmetic is exact at every reachable value (the analyzer score deductions),
the rounding is omitted.  Python `round` (halves to even) is embedded by
`py_round`.  String operations are re-implemented over the underlying
character lists so that every definition evaluates inside the kernel.
-/

namespace CanvaAppReviewer

/-! ### Python string primitives -/

/-- Python `str.lower()` (ASCII case folding, which is all the program feeds it). -/
def py_lower (s : String) : String := ⟨s.data.map Char.toLower⟩

/-- Python `str.strip()` with no argument: drop leading and trailing whitespace. -/
def py_strip (s : String) : String :=
  ⟨((s.data.dropWhile Char.isWhitespace).reverse.dropWhile Char.isWhitespace).reverse⟩

/-- Worker for `py_replace`; the fuel argument is an upper bound on the number of
steps, so the recursion is structural.  Every call site uses a non-empty pattern. -/
def replace_go : Nat → List Char → List Char → List Char → List Char
  | 0, s, _, _ => s
  | _ + 1, [], _, _ => []
  | fuel + 1, c :: rest, pat, rep =>
    if pat.isPrefixOf (c :: rest) then
      rep ++ replace_go fuel ((c :: rest).drop pat.length) pat rep
    else
      c :: replace_go fuel rest pat rep

/-- Python `str.replace(pattern, replacement)`: replace every (leftmost,
non-overlapping) occurrence of `pattern`. -/
def py_replace (s pattern_ replacement : String) : String :=
  ⟨replace_go (s.data.length + 1) s.data pattern_.data replacement.data⟩

/-- Python `"sep".join(parts)`. -/
def py_join (sep : String) : List String → String
  | [] => ""
  | [x] => x
  | x :: y :: xs => x ++ sep ++ py_join sep (y :: xs)

/-- Worker for `py_title`: the boolean records whether the previous character
was alphabetic (Python capitalizes the first letter of each alphabetic run
and lower-cases the rest of the run). -/
def title_go : List Char → Bool → List Char
  | [], _ => []
  | c :: rest, prev_alpha =>
    (if c.isAlpha then (if prev_alpha then c.toLower else c.toUpper) else c) ::
      title_go rest c.isAlpha

/-- Python `str.title()`. -/
def py_title (s : String) : String := ⟨title_go s.data false⟩

/-- Python slice `s[:n]`. -/
def py_take (s : String) (n : Nat) : String := ⟨s.data.take n⟩

/-- Python `round` on an exact rational: round to the nearest integer,
rounding halves to the nearest even integer. -/
def py_round (q : ℚ) : ℤ :=
  if q - ⌊q⌋ < 1 / 2 then ⌊q⌋
  else if 1 / 2 < q - ⌊q⌋ then ⌊q⌋ + 1
  else if ⌊q⌋ % 2 = 0 then ⌊q⌋ else ⌊q⌋ + 1

/-- IEEE 754 binary64 rounding of an exact rational: round to a 53-bit
significand, to nearest, ties to even (the significand grid at exponent
`Int.log 2 |q| - 52`, on which `py_round` is exactly the nearest-even rule).
The exponent is unbounded, which coincides with binary64 on the whole normal
range; the program's values (scores in [0, 100] and their weighted sums)
never leave it. -/
def fl (q : ℚ) : ℚ :=
  if q = 0 then 0
  else (py_round (q / (2 : ℚ) ^ (Int.log 2 |q| - 52)) : ℚ) *
    (2 : ℚ) ^ (Int.log 2 |q| - 52)

/-! ### Data model

`Issue` embeds the issue dictionaries produced by the analyzers.  The
`category` field is written by the orchestrator during aggregation (the
source mutates the dictionary with `issue["category"] = category`); the
`categories` field is absent (`none`) until a merge happens. -/

structure Issue where
  severity : String
  title : String
  description : String
  line_number : Option Int
  code_snippet : Option String
  recommendation : String
  category : String
  categories : Option (List String)
deriving DecidableEq

/-- The result dictionary returned by one analyzer (`BaseAnalyzer.analyze` or
`AnalysisOrchestrator._create_fallback_result`): a score, an issue list,
recommendations, and the `error` key that only the fallback result sets. -/
structure AnalyzerResult where
  score : ℤ
  issues : List Issue
  recommendations : List String
  error : Option String
deriving DecidableEq

structure SeverityCounts where
  critical : Nat
  high : Nat
  medium : Nat
  low : Nat
deriving DecidableEq

/-- One entry of the `score_breakdown` map in the final report. -/
structure CategoryBreakdown where
  score : ℤ
  weight : ℚ
  weighted_score : ℚ
  issue_count : Nat
  severity_breakdown : SeverityCounts
deriving DecidableEq

/-- The parts of the `file_metadata` dictionary the orchestrator reads. -/
structure FileMetadata where
  file_name : String
  file_size : Nat
deriving DecidableEq

/-- The final `AnalysisResult` report model (`app/models/response.py`), without
the wall-clock timing fields (`analysis_timestamp`, `analysis_duration`),
which no claim touches. -/
structure AnalysisResult where
  file_path : String
  file_name : String
  file_size : Nat
  overall_score : ℤ
  score_breakdown : List (String × CategoryBreakdown)
  total_issues : Nat
  critical_issues : Nat
  high_issues : Nat
  issues : List Issue
  recommendations : List String
  summary : String
deriving DecidableEq

/-! ### Analyzer scoring (`BaseAnalyzer._calculate_score`) -/

/-- The `severity_weights` table, with the source's `.get(severity, 5)`
default for unknown severities. -/
def severity_weight (s : String) : Nat :=
  if s = "critical" then 20
  else if s = "high" then 10
  else if s = "medium" then 5
  else if s = "low" then 2
  else 5

/-- `BaseAnalyzer._calculate_score`: start at 100, accumulate per-issue
deductions, halve the part of the total beyond 50, floor at 0, round. -/
def calculate_score (issues : List Issue) : ℤ :=
  let deductions : Nat :=
    issues.foldl (fun acc i => acc + severity_weight (py_lower i.severity)) 0
  let adjusted : ℚ :=
    if 50 < deductions then 50 + ((deductions : ℚ) - 50) * (1 / 2) else (deductions : ℚ)
  py_round (max 0 (100 - adjusted))

/-- The per-category score exactly as the spec words it: subtract the
per-severity deductions from 100, where every deduction point beyond a
cumulative total of 50 only costs half, floor at 0, round to nearest. -/
def spec_category_score (issues : List Issue) : ℤ :=
  let d : Nat := (issues.map (fun i => severity_weight (py_lower i.severity))).sum
  let capped : ℚ := min (d : ℚ) 50
  py_round (max 0 (100 - (capped + ((d : ℚ) - capped) / 2)))

/-! ### Severity ranking and sorting (`_aggregate_results`) -/

/-- The `severity_order` table `critical:0, high:1, medium:2, low:3`, with the
source's default of 3 for anything else. -/
def severity_order (s : String) : Nat :=
  if s = "critical" then 0
  else if s = "high" then 1
  else if s = "medium" then 2
  else 3

def issue_severity_le (a b : Issue) : Prop :=
  severity_order a.severity ≤ severity_order b.severity

instance : DecidableRel issue_severity_le := fun _ _ => Nat.decLe _ _

instance : IsTotal Issue issue_severity_le := ⟨fun _ _ => Nat.le_total _ _⟩

instance : IsTrans Issue issue_severity_le := ⟨fun _ _ _ => Nat.le_trans⟩

/-- Python `list.sort(key=severity_order)` / `sorted(...)`: a stable sort by
severity rank.  Insertion sort with the reflexive rank order is stable, so it
computes the same list as CPython's stable sort. -/
def sort_issues (l : List Issue) : List Issue := List.insertionSort issue_severity_le l

/-! ### Issue key and deduplication (`_create_issue_key`, `_aggregate_results`) -/

/-- `AnalysisOrchestrator._create_issue_key`. -/
def create_issue_key (issue : Issue) : String :=
  let title := py_strip (py_lower issue.title)
  let code_snippet := py_strip (issue.code_snippet.getD "")
  let title_normalized :=
    py_strip (py_replace (py_replace (py_replace title "via" "") "using" "") " - " " ")
  let key_parts := [title_normalized]
  let key_parts := key_parts ++
    (match issue.line_number with
     | some n => ["line:" ++ toString n]
     | none => [])
  let key_parts := key_parts ++
    (if code_snippet = "" then [] else ["code:" ++ py_take code_snippet 50])
  py_join "|" key_parts

/-- The merge branch of `_aggregate_results`: initialize the `categories` list
from the existing issue's own category if absent, then append the new
category if it is not already present. -/
def merge_category (existing : Issue) (category : String) : Issue :=
  let cats := existing.categories.getD [existing.category]
  { existing with categories := some (if category ∈ cats then cats else cats ++ [category]) }

/-- Merge `category` into the first collected issue whose key is `key`
(the source's `next(existing for existing in all_issues if ...)`). -/
def merge_into_first (key category : String) : List Issue → List Issue
  | [] => []
  | x :: xs =>
    if create_issue_key x = key then merge_category x category :: xs
    else x :: merge_into_first key category xs

/-- One iteration of the deduplication loop in `_aggregate_results`: tag the
issue with its category, and either append it (remembering its key in
`seen_issues`) or merge its category into the already-collected duplicate. -/
def dedup_step (acc : List Issue × List String) (p : String × Issue) :
    List Issue × List String :=
  let issue := { p.2 with category := p.1 }
  let key := create_issue_key issue
  if key ∈ acc.2 then (merge_into_first key p.1 acc.1, acc.2)
  else (acc.1 ++ [issue], acc.2 ++ [key])

/-- The full deduplication pass over the `(category, issue)` stream, in
category-insertion order. -/
def dedup_issues (pairs : List (String × Issue)) : List Issue :=
  (pairs.foldl dedup_step ([], [])).1

/-! ### Score aggregation -/

/-- `AnalysisOrchestrator.SCORING_WEIGHTS`, in dictionary insertion order; the
dictionary values are the binary64 doubles denoted by the literals `0.30` and
`0.40`. -/
def SCORING_WEIGHTS : List (String × ℚ) :=
  [("security", fl (30 / 100)), ("code_quality", fl (30 / 100)), ("ui_ux", fl (40 / 100))]

/-- Weight lookup `self.SCORING_WEIGHTS[category]` (the orchestrator only ever
indexes with the three configured categories). -/
def weight_of (category : String) : ℚ := (SCORING_WEIGHTS.lookup category).getD 0

/-- `AnalysisOrchestrator._calculate_overall_score`: weighted sum over the
scoring weights, reading score 0 for a missing category, then `round`.  Each
Python float operation is modelled by `fl`: the int score is converted to a
double, multiplied by the weight, and accumulated, each step rounding to
binary64. -/
def calculate_overall_score (results : List (String × AnalyzerResult)) : ℤ :=
  py_round <| SCORING_WEIGHTS.foldl
    (fun acc cw =>
      fl (acc + fl (fl (match results.lookup cw.1 with
                        | some r => (r.score : ℚ)
                        | none => 0) * cw.2)))
    0

/-- The overall score exactly as the spec words it:
`round(0.30 * security + 0.30 * code_quality + 0.40 * ui_ux)` in exact
arithmetic. -/
def spec_overall_score (security code_quality ui_ux : ℤ) : ℤ :=
  py_round ((30 : ℚ) / 100 * security + 30 / 100 * code_quality + 40 / 100 * ui_ux)

/-- The overall score as the program's float evaluation performs it: the
binary64 accumulation of the weighted scores with the double weights
`0.30, 0.30, 0.40`, then Python `round`. -/
def spec_float_overall_score (security code_quality ui_ux : ℤ) : ℤ :=
  py_round (fl (fl (fl (0 + fl (fl (security : ℚ) * fl (30 / 100))) +
    fl (fl (code_quality : ℚ) * fl (30 / 100))) + fl (fl (ui_ux : ℚ) * fl (40 / 100))))

/-! ### Report assembly (`_aggregate_results` and friends) -/

/-- `AnalysisOrchestrator._get_severity_breakdown`. -/
def get_severity_breakdown (issues : List Issue) : SeverityCounts :=
  issues.foldl
    (fun c i =>
      if i.severity = "critical" then { c with critical := c.critical + 1 }
      else if i.severity = "high" then { c with high := c.high + 1 }
      else if i.severity = "medium" then { c with medium := c.medium + 1 }
      else if i.severity = "low" then { c with low := c.low + 1 }
      else c)
    ⟨0, 0, 0, 0⟩

/-- `AnalysisOrchestrator._generate_summary`. -/
def generate_summary (overall_score : ℤ) (total_issues critical_issues high_issues : Nat) :
    String :=
  let readiness_desc :=
    if 90 ≤ overall_score then "excellent Canva app readiness"
    else if 80 ≤ overall_score then "good Canva app readiness"
    else if 60 ≤ overall_score then "moderate Canva app readiness"
    else "limited Canva app readiness"
  let status_emoji :=
    if 90 ≤ overall_score then "🎉"
    else if 80 ≤ overall_score then "✅"
    else if 60 ≤ overall_score then "⚠️"
    else "🔍"
  let issue_text := toString total_issues ++ " issue" ++ (if total_issues ≠ 1 then "s" else "")
  let priority_text :=
    if 0 < critical_issues then
      " including " ++ toString critical_issues ++ " critical issue" ++
        (if critical_issues ≠ 1 then "s" else "") ++ " requiring immediate attention"
    else if 0 < high_issues then
      " including " ++ toString high_issues ++ " high-priority issue" ++
        (if high_issues ≠ 1 then "s" else "") ++ " to address"
    else ""
  status_emoji ++ " Analysis complete: " ++ readiness_desc ++ " with a score of " ++
    toString overall_score ++ "/100. Found " ++ issue_text ++ priority_text ++ "."

/-- The display name and emoji a category gets in the recommendation lines. -/
def category_display (category : String) : String × String :=
  if category = "security" then ("Security", "🔒")
  else if category = "code_quality" then ("Code Quality", "⚙️")
  else ("UI UX", "🎨")

/-- `AnalysisOrchestrator._generate_overall_recommendations`. -/
def generate_overall_recommendations (results : List (String × AnalyzerResult))
    (overall_score : ℤ) : List String :=
  let banner :=
    if overall_score < 50 then
      "🚨 URGENT: This code has critical issues that need immediate attention before deployment."
    else if overall_score < 70 then
      "⚠️ IMPORTANT: Address high-priority issues to improve code quality and security."
    else if overall_score < 85 then
      "✅ GOOD: Code is generally solid with some areas for improvement."
    else "🎉 EXCELLENT: High-quality code with minimal issues."
  let per_category := results.map (fun cr =>
    let score := cr.2.score
    let critical_count := (cr.2.issues.filter (fun i => i.severity = "critical")).length
    let nm := (category_display cr.1).1
    let emoji := (category_display cr.1).2
    if 0 < critical_count then
      emoji ++ " " ++ nm ++ ": " ++ toString critical_count ++ " critical issue" ++
        (if critical_count ≠ 1 then "s" else "") ++ " need immediate fixes."
    else if score < 60 then
      emoji ++ " " ++ nm ++ ": Focus on addressing major concerns to improve score."
    else if 90 ≤ score then emoji ++ " " ++ nm ++ ": Excellent standards maintained."
    else emoji ++ " " ++ nm ++ ": Good foundation with room for minor improvements.")
  let all_issues := results.foldl (fun acc cr => acc ++ cr.2.issues) []
  let next_steps :=
    if all_issues.isEmpty then []
    else
      let top := (sort_issues all_issues).take 3
      ["📋 Next Steps: Start by addressing the top 3 highest-priority issues:"] ++
        top.enum.map (fun p =>
          "   " ++ toString (p.1 + 1) ++ ". " ++ p.2.title ++ " (" ++ p.2.severity ++
            " severity)")
  banner :: per_category ++ next_steps

/-- `AnalysisOrchestrator._aggregate_results`. -/
def aggregate_results (results : List (String × AnalyzerResult)) (file_path : String)
    (meta : FileMetadata) : AnalysisResult :=
  let overall_score := calculate_overall_score results
  let pairs := results.foldl (fun acc cr => acc ++ cr.2.issues.map (fun i => (cr.1, i))) []
  let sorted_issues := sort_issues (dedup_issues pairs)
  let recommendations := generate_overall_recommendations results overall_score
  let score_breakdown := results.map (fun cr =>
    (cr.1,
     { score := cr.2.score
       weight := weight_of cr.1
       weighted_score := fl (fl ((cr.2.score : ℚ)) * weight_of cr.1)
       issue_count := cr.2.issues.length
       severity_breakdown := get_severity_breakdown cr.2.issues : CategoryBreakdown }))
  let total_issues := sorted_issues.length
  let critical_issues := (sorted_issues.filter (fun i => i.severity = "critical")).length
  let high_issues := (sorted_issues.filter (fun i => i.severity = "high")).length
  { file_path := file_path
    file_name := meta.file_name
    file_size := meta.file_size
    overall_score := overall_score
    score_breakdown := score_breakdown
    total_issues := total_issues
    critical_issues := critical_issues
    high_issues := high_issues
    issues := sorted_issues
    recommendations := recommendations
    summary := generate_summary overall_score total_issues critical_issues high_issues }

/-- `AnalysisOrchestrator._create_fallback_result`. -/
def create_fallback_result (category : String) (error_message : String) : AnalyzerResult :=
  { score := 0
    issues := [{ severity := "critical"
                 title := py_title (py_replace category "_" " ") ++ " Analysis Failed"
                 description :=
                   "The " ++ category ++ " analyzer encountered an error: " ++ error_message
                 line_number := none
                 code_snippet := none
                 recommendation :=
                   "Please check the file format and try again. Contact support if the issue persists."
                 category := ""
                 categories := none }]
    recommendations := ["Re-run " ++ category ++ " analysis after fixing file issues."]
    error := some error_message }

/-- `AnalysisOrchestrator._create_error_result`. -/
def create_error_result (file_path : String) (meta : FileMetadata) (error_message : String) :
    AnalysisResult :=
  { file_path := file_path
    file_name := meta.file_name
    file_size := meta.file_size
    overall_score := 0
    score_breakdown := []
    total_issues := 1
    critical_issues := 1
    high_issues := 0
    issues := [{ severity := "critical"
                 title := "Analysis System Error"
                 description :=
                   "The analysis system encountered a critical error: " ++ error_message
                 line_number := none
                 code_snippet := none
                 recommendation :=
                   "Please try uploading the file again or contact support if the issue persists."
                 category := "system"
                 categories := none }]
    recommendations := ["Re-upload the file and try analysis again."]
    summary := "Analysis failed due to system error: " ++ error_message }

/-- The result-collection loop of `AnalysisOrchestrator.analyze_file`: each
analyzer outcome is either its result or an exception (`Except.error` with the
exception text), and exceptions are replaced by the category's fallback
result, in the fixed order security, code_quality, ui_ux. -/
def process_analyzer_outcomes (security code_quality ui_ux : Except String AnalyzerResult) :
    List (String × AnalyzerResult) :=
  [("security",
    match security with
    | .ok r => r
    | .error e => create_fallback_result "security" e),
   ("code_quality",
    match code_quality with
    | .ok r => r
    | .error e => create_fallback_result "code_quality" e),
   ("ui_ux",
    match ui_ux with
    | .ok r => r
    | .error e => create_fallback_result "ui_ux" e)]

/-- `AnalysisOrchestrator.analyze_file`, on the normal path where aggregation
itself does not raise: substitute fallbacks and aggregate. -/
def analyze_file (file_path : String) (meta : FileMetadata)
    (security code_quality ui_ux : Except String AnalyzerResult) : AnalysisResult :=
  aggregate_results (process_analyzer_outcomes security code_quality ui_ux) file_path meta

/-- The outer `try/except` of `AnalysisOrchestrator.analyze_file`: the
argument is the outcome of the aggregation steps (`Except.error e` embeds an
unexpected exception with text `e`), and an exception is converted into
`_create_error_result` instead of propagating. -/
def analyze_file_guarded (file_path : String) (meta : FileMetadata)
    (aggregation : Except String AnalysisResult) : AnalysisResult :=
  match aggregation with
  | .ok report => report
  | .error e => create_error_result file_path meta e

/-! ### Progress tracking (`app/api/v1/analyze.py`, `run_analysis_background`) -/

/-- The per-run `progress_state` dictionary of `run_analysis_background`. -/
structure ProgressState where
  max_progress : Nat
  analyzers_completed : Nat
  total_analyzers : Nat
deriving DecidableEq

/-- The entry of `analysis_status_store` for one file id. -/
structure StatusEntry where
  status : String
  progress : Nat
  message : String
  result : Option AnalysisResult
  error : Option String
deriving DecidableEq

/-- The `progress_state` dictionary as initialized at the top of
`run_analysis_background`. -/
def initial_progress_state : ProgressState :=
  { max_progress := 0, analyzers_completed := 0, total_analyzers := 3 }

/-- The status-store entry written by the `analyze` endpoint before the
background task starts. -/
def initial_status_entry : StatusEntry :=
  { status := "pending"
    progress := 0
    message := "Analysis queued for processing"
    result := none
    error := none }

/-- The nested `update_progress` function: accept the numeric update only if
it exceeds `max_progress` or is one of the reserved checkpoint values
92, 95, 100; an accepted update overwrites both `max_progress` and the
store entry. -/
def update_progress (ps : ProgressState) (e : StatusEntry) (progress : Nat)
    (message : String) : ProgressState × StatusEntry :=
  if ps.max_progress < progress ∨ progress = 92 ∨ progress = 95 ∨ progress = 100 then
    ({ ps with max_progress := progress },
     { e with progress := progress, message := message })
  else (ps, e)

/-- The analyzer-completion progress target
`10 + int(analyzers_completed / total_analyzers * 80)` (exact integer
division; for this program `total_analyzers = 3`, where the source's float
arithmetic computes the same floor). -/
def analyzer_completion_target (completed total : Nat) : Nat :=
  10 + completed * 80 / total

/-- The nested `update_analyzer_completion` function: count the completion,
compute the target from the completion count alone, and update only when the
target exceeds the running maximum. -/
def update_analyzer_completion (ps : ProgressState) (e : StatusEntry)
    (analyzer_name : String) : ProgressState × StatusEntry :=
  let ps := { ps with analyzers_completed := ps.analyzers_completed + 1 }
  let calculated := analyzer_completion_target ps.analyzers_completed ps.total_analyzers
  let message := analyzer_name ++ " analysis completed (" ++
    toString ps.analyzers_completed ++ "/" ++ toString ps.total_analyzers ++
    " analyzers done)"
  if ps.max_progress < calculated then
    ({ ps with max_progress := calculated },
     { e with progress := calculated, message := message })
  else (ps, e)

/-- The `except` handler at the bottom of `run_analysis_background`: mark the
run failed and reset the externally visible progress to 0. -/
def fail_entry (e : StatusEntry) (error_message : String) : StatusEntry :=
  { e with status := "failed"
           progress := 0
           message := "Analysis failed: " ++ error_message
           error := some error_message }

/-- A progress signal hitting one run's progress state: either a numeric
`report(progress, message)` update or a `completed(analyzer_name)`
analyzer-completion notification. -/
inductive ProgressEvent where
  | report (progress : Nat) (message : String)
  | completed (analyzer_name : String)
deriving DecidableEq

def apply_event (s : ProgressState × StatusEntry) (ev : ProgressEvent) :
    ProgressState × StatusEntry :=
  match ev with
  | .report p m => update_progress s.1 s.2 p m
  | .completed n => update_analyzer_completion s.1 s.2 n

def run_events (s : ProgressState × StatusEntry) (evs : List ProgressEvent) :
    ProgressState × StatusEntry :=
  evs.foldl apply_event s

/-! ### The background task (`run_analysis_background`) and the orchestrator call

`AnalysisOrchestrator.analyze_file` declares exactly the parameters
`self, file_path, file_content, file_metadata`.  The background task calls it
with the keyword arguments below (`self` is bound by the method access).
Python raises `TypeError` at the call site when a keyword argument does not
match any declared parameter, before the coroutine body runs; the model
checks that binding explicitly. -/

def analyze_file_param_names : List String :=
  ["file_path", "file_content", "file_metadata"]

def background_call_kwarg_names : List String :=
  ["file_path", "file_content", "file_metadata", "progress_callback"]

/-- Keyword-argument binding succeeds when every supplied keyword names a
declared parameter. -/
def kwargs_bind (params kwargs : List String) : Bool :=
  kwargs.all (fun k => params.contains k)

/-- The call `orchestrator.analyze_file(file_path=..., file_content=...,
file_metadata=..., progress_callback=...)` as the background task performs
it: if every keyword binds, the orchestrator runs and produces
`orchestrator_outcome`; otherwise Python raises `TypeError` before the
orchestrator body (and hence any analyzer) executes. -/
def call_analyze_file (orchestrator_outcome : AnalysisResult) :
    Except String AnalysisResult :=
  if kwargs_bind analyze_file_param_names background_call_kwarg_names then
    .ok orchestrator_outcome
  else
    .error "analyze_file() got an unexpected keyword argument progress_callback"

/-- `run_analysis_background` acting on the run's status entry.  The returned
boolean records whether the orchestrator (and with it any analyzer) ever
executed.  The body sets the entry to running at 5%, then 10%, performs the
keyword call, and on success walks the 92/95/100 completion updates storing
the result; any exception lands in the handler modelled by `fail_entry`. -/
def run_analysis_background (e : StatusEntry) (orchestrator_outcome : AnalysisResult) :
    StatusEntry × Bool :=
  let e := { e with status := "running", progress := 5, message := "Initializing analysis..." }
  let e := { e with progress := 10
                    message := "Starting Security, Code Quality, and UI/UX analysis..." }
  match call_analyze_file orchestrator_outcome with
  | .ok analysis_result =>
    let e := { e with progress := 92, message := "Aggregating analysis results..." }
    let e := { e with progress := 95, message := "Calculating final scores..." }
    ({ e with status := "completed"
              progress := 100
              message := "Analysis completed successfully"
              result := some analysis_result }, true)
  | .error err => (fail_entry e err, false)

/-! ### Predicates used to state the claims -/

/-- The score stored for `category` in a report's `score_breakdown`. -/
def breakdown_score (report : AnalysisResult) (category : String) : Option ℤ :=
  (report.score_breakdown.lookup category).map (fun b => b.score)

/-- The issue count stored for `category` in a report's `score_breakdown`. -/
def breakdown_issue_count (report : AnalysisResult) (category : String) : Option Nat :=
  (report.score_breakdown.lookup category).map (fun b => b.issue_count)

/-- The severity histogram stored for `category` in a report's `score_breakdown`. -/
def breakdown_severities (report : AnalysisResult) (category : String) : Option SeverityCounts :=
  (report.score_breakdown.lookup category).map (fun b => b.severity_breakdown)

/-- What partial-failure isolation promises for the failing category: the
report keeps all three breakdown entries, the failing entry scores 0 with
exactly one issue which is critical, and the substituted fallback result
holds exactly one synthetic critical issue whose title names the failed
category (`expected_title`) and whose description embeds the failure
reason. -/
def failing_category_ok (report : AnalysisResult) (category expected_title err : String) :
    Prop :=
  report.score_breakdown.map Prod.fst = ["security", "code_quality", "ui_ux"] ∧
  breakdown_score report category = some 0 ∧
  breakdown_issue_count report category = some 1 ∧
  breakdown_severities report category = some ⟨1, 0, 0, 0⟩ ∧
  ∃ i, (create_fallback_result category err).issues = [i] ∧
    i.severity = "critical" ∧
    i.title = expected_title ∧
    i.description = "The " ++ category ++ " analyzer encountered an error: " ++ err

/-- One progress event never lowers the externally observed progress, except
when the event reports a reserved checkpoint value (92, 95 or 100) that does
not exceed the running maximum. -/
def progress_step_spec (s : ProgressState × StatusEntry) (ev : ProgressEvent) : Prop :=
  s.2.progress ≤ (apply_event s ev).2.progress ∨
    ∃ p m, ev = ProgressEvent.report p m ∧ (p = 92 ∨ p = 95 ∨ p = 100) ∧
      p ≤ s.1.max_progress

/-- The analyzer-completion update writes the progress value
`10 + floor(analyzers_completed / total_analyzers * 80)`, and which analyzer
finished affects only the status message, never the progress number. -/
def completion_target_spec (ps : ProgressState) (e : StatusEntry) (analyzer_name : String) :
    Prop :=
  (update_analyzer_completion ps e analyzer_name).2.progress =
      10 + ⌊((ps.analyzers_completed + 1 : ℚ) / (ps.total_analyzers : ℚ)) * 80⌋₊ ∧
    ∀ other, (update_analyzer_completion ps e other).2.progress =
      (update_analyzer_completion ps e analyzer_name).2.progress

/-! ### Helper lemmas -/

theorem py_round_intCast (n : ℤ) : py_round ((n : ℚ)) = n := by
  unfold py_round
  rw [Int.floor_intCast, sub_self, if_pos (by norm_num : (0 : ℚ) < 1 / 2)]

theorem py_round_congr (q : ℚ) (n : ℤ) (h : q = (n : ℚ)) : py_round q = n := by
  rw [h, py_round_intCast]

theorem py_round_low (q : ℚ) (n : ℤ) (h1 : (n : ℚ) ≤ q) (h2 : q < (n : ℚ) + 1 / 2) :
    py_round q = n := by
  have hf : ⌊q⌋ = n := Int.floor_eq_iff.mpr ⟨h1, by linarith⟩
  unfold py_round
  rw [hf, if_pos (by linarith)]

theorem py_round_high (q : ℚ) (n : ℤ) (h1 : (n : ℚ) - 1 / 2 < q) (h2 : q ≤ (n : ℚ)) :
    py_round q = n := by
  rcases eq_or_lt_of_le h2 with heq | hlt
  · rw [heq, py_round_intCast]
  · have hf : ⌊q⌋ = n - 1 := Int.floor_eq_iff.mpr ⟨by push_cast; linarith, by push_cast; linarith⟩
    unfold py_round
    rw [hf, if_neg (not_lt.mpr (by push_cast; linarith)), if_pos (by push_cast; linarith)]
    omega

theorem py_round_tie_even (n : ℤ) (h : n % 2 = 0) : py_round ((n : ℚ) + 1 / 2) = n := by
  have hf : ⌊(n : ℚ) + 1 / 2⌋ = n := Int.floor_eq_iff.mpr ⟨by linarith, by linarith⟩
  unfold py_round
  rw [hf, if_neg (not_lt.mpr (by linarith)), if_neg (not_lt.mpr (by linarith)), if_pos h]

theorem py_round_tie_odd (n : ℤ) (h : ¬n % 2 = 0) : py_round ((n : ℚ) + 1 / 2) = n + 1 := by
  have hf : ⌊(n : ℚ) + 1 / 2⌋ = n := Int.floor_eq_iff.mpr ⟨by linarith, by linarith⟩
  unfold py_round
  rw [hf, if_neg (not_lt.mpr (by linarith)), if_neg (not_lt.mpr (by linarith)), if_neg h]

theorem int_log2_eq (q : ℚ) (e : ℤ) (h0 : 0 < q)
    (h1 : (2 : ℚ) ^ e ≤ q) (h2 : q < (2 : ℚ) ^ (e + 1)) : Int.log 2 q = e := by
  refine le_antisymm ?_ ?_
  · have h2' : q < ((2 : ℕ) : ℚ) ^ (e + 1) := by push_cast; exact h2
    exact Int.lt_add_one_iff.mp ((Int.lt_zpow_iff_log_lt (by norm_num) h0).mp h2')
  · have h1' : ((2 : ℕ) : ℚ) ^ e ≤ q := by push_cast; exact h1
    exact (Int.zpow_le_iff_le_log (by norm_num) h0).mp h1'

theorem fl_eval (q : ℚ) (e m : ℤ) (h0 : 0 < q)
    (hlo : (2 : ℚ) ^ e ≤ q) (hhi : q < (2 : ℚ) ^ (e + 1))
    (hr : py_round (q / (2 : ℚ) ^ (e - 52)) = m) :
    fl q = (m : ℚ) * (2 : ℚ) ^ (e - 52) := by
  have habs : |q| = q := abs_of_pos h0
  have hlog : Int.log 2 |q| = e := by rw [habs]; exact int_log2_eq q e h0 hlo hhi
  unfold fl
  rw [if_neg h0.ne', hlog, hr]

theorem fl_zero : fl (0 : ℚ) = 0 := by
  unfold fl
  rw [if_pos rfl]

/-! Binary64 evaluations used by the overall-score theorems.  Each one
instantiates `fl_eval` with the exponent of the value and the rounded
53-bit significand. -/

theorem fl_D030 : fl ((30 : ℚ) / 100) = 5404319552844595 / 18014398509481984 := by
  have hr : py_round ((30 : ℚ) / 100 / (2 : ℚ) ^ ((-2 : ℤ) - 52)) = 5404319552844595 :=
    py_round_low _ _ (by norm_num) (by norm_num)
  rw [fl_eval ((30 : ℚ) / 100) (-2) 5404319552844595 (by norm_num) (by norm_num)
    (by norm_num) hr]
  norm_num

theorem fl_D040 : fl ((40 : ℚ) / 100) = 3602879701896397 / 9007199254740992 := by
  have hr : py_round ((40 : ℚ) / 100 / (2 : ℚ) ^ ((-2 : ℤ) - 52)) = 7205759403792794 :=
    py_round_high _ _ (by norm_num) (by norm_num)
  rw [fl_eval ((40 : ℚ) / 100) (-2) 7205759403792794 (by norm_num) (by norm_num)
    (by norm_num) hr]
  norm_num

theorem fl_3 : fl (3 : ℚ) = 3 := by
  have hr : py_round ((3 : ℚ) / (2 : ℚ) ^ ((1 : ℤ) - 52)) = 6755399441055744 :=
    py_round_low _ _ (by norm_num) (by norm_num)
  rw [fl_eval (3 : ℚ) 1 6755399441055744 (by norm_num) (by norm_num) (by norm_num) hr]
  norm_num

theorem fl_24 : fl (24 : ℚ) = 24 := by
  have hr : py_round ((24 : ℚ) / (2 : ℚ) ^ ((4 : ℤ) - 52)) = 6755399441055744 :=
    py_round_low _ _ (by norm_num) (by norm_num)
  rw [fl_eval (24 : ℚ) 4 6755399441055744 (by norm_num) (by norm_num) (by norm_num) hr]
  norm_num

theorem fl_51 : fl (51 : ℚ) = 51 := by
  have hr : py_round ((51 : ℚ) / (2 : ℚ) ^ ((5 : ℤ) - 52)) = 7177611906121728 :=
    py_round_low _ _ (by norm_num) (by norm_num)
  rw [fl_eval (51 : ℚ) 5 7177611906121728 (by norm_num) (by norm_num) (by norm_num) hr]
  norm_num

theorem fl_70 : fl (70 : ℚ) = 70 := by
  have hr : py_round ((70 : ℚ) / (2 : ℚ) ^ ((6 : ℤ) - 52)) = 4925812092436480 :=
    py_round_low _ _ (by norm_num) (by norm_num)
  rw [fl_eval (70 : ℚ) 6 4925812092436480 (by norm_num) (by norm_num) (by norm_num) hr]
  norm_num

theorem fl_79 : fl (79 : ℚ) = 79 := by
  have hr : py_round ((79 : ℚ) / (2 : ℚ) ^ ((6 : ℤ) - 52)) = 5559130790035456 :=
    py_round_low _ _ (by norm_num) (by norm_num)
  rw [fl_eval (79 : ℚ) 6 5559130790035456 (by norm_num) (by norm_num) (by norm_num) hr]
  norm_num

theorem fl_80 : fl (80 : ℚ) = 80 := by
  have hr : py_round ((80 : ℚ) / (2 : ℚ) ^ ((6 : ℤ) - 52)) = 5629499534213120 :=
    py_round_low _ _ (by norm_num) (by norm_num)
  rw [fl_eval (80 : ℚ) 6 5629499534213120 (by norm_num) (by norm_num) (by norm_num) hr]
  norm_num

theorem fl_90 : fl (90 : ℚ) = 90 := by
  have hr : py_round ((90 : ℚ) / (2 : ℚ) ^ ((6 : ℤ) - 52)) = 6333186975989760 :=
    py_round_low _ _ (by norm_num) (by norm_num)
  rw [fl_eval (90 : ℚ) 6 6333186975989760 (by norm_num) (by norm_num) (by norm_num) hr]
  norm_num

theorem fl_prod_80_030 : fl ((27021597764222975 : ℚ) / 1125899906842624) = 24 := by
  have hr : py_round ((27021597764222975 : ℚ) / 1125899906842624 / (2 : ℚ) ^ ((4 : ℤ) - 52)) =
      6755399441055744 :=
    py_round_high _ _ (by norm_num) (by norm_num)
  rw [fl_eval _ 4 6755399441055744 (by norm_num) (by norm_num) (by norm_num) hr]
  norm_num

theorem fl_prod_90_030 : fl ((243194379878006775 : ℚ) / 9007199254740992) = 27 := by
  have hr : py_round ((243194379878006775 : ℚ) / 9007199254740992 / (2 : ℚ) ^ ((4 : ℤ) - 52)) =
      7599824371187712 :=
    py_round_high _ _ (by norm_num) (by norm_num)
  rw [fl_eval _ 4 7599824371187712 (by norm_num) (by norm_num) (by norm_num) hr]
  norm_num

theorem fl_prod_70_040 : fl ((126100789566373895 : ℚ) / 4503599627370496) = 28 := by
  have hr : py_round ((126100789566373895 : ℚ) / 4503599627370496 / (2 : ℚ) ^ ((4 : ℤ) - 52)) =
      7881299347898368 :=
    py_round_low _ _ (by norm_num) (by norm_num)
  rw [fl_eval _ 4 7881299347898368 (by norm_num) (by norm_num) (by norm_num) hr]
  norm_num

theorem fl_prod_3_030 :
    fl ((16212958658533785 : ℚ) / 18014398509481984) = 2026619832316723 / 2251799813685248 := by
  have harg : (16212958658533785 : ℚ) / 18014398509481984 / (2 : ℚ) ^ ((-1 : ℤ) - 52) =
      ((8106479329266892 : ℤ) : ℚ) + 1 / 2 := by
    push_cast
    norm_num
  have hr : py_round ((16212958658533785 : ℚ) / 18014398509481984 /
      (2 : ℚ) ^ ((-1 : ℤ) - 52)) = 8106479329266892 := by
    rw [harg]
    exact py_round_tie_even 8106479329266892 (by decide)
  rw [fl_eval _ (-1) 8106479329266892 (by norm_num) (by norm_num) (by norm_num) hr]
  norm_num

theorem fl_repr_09 :
    fl ((2026619832316723 : ℚ) / 2251799813685248) = 2026619832316723 / 2251799813685248 := by
  have hr : py_round ((2026619832316723 : ℚ) / 2251799813685248 /
      (2 : ℚ) ^ ((-1 : ℤ) - 52)) = 8106479329266892 :=
    py_round_low _ _ (by norm_num) (by norm_num)
  rw [fl_eval _ (-1) 8106479329266892 (by norm_num) (by norm_num) (by norm_num) hr]
  norm_num

theorem fl_prod_24_040 :
    fl ((10808639105689191 : ℚ) / 1125899906842624) = 1351079888211149 / 140737488355328 := by
  have harg : (10808639105689191 : ℚ) / 1125899906842624 / (2 : ℚ) ^ ((3 : ℤ) - 52) =
      ((5404319552844595 : ℤ) : ℚ) + 1 / 2 := by
    push_cast
    norm_num
  have hr : py_round ((10808639105689191 : ℚ) / 1125899906842624 /
      (2 : ℚ) ^ ((3 : ℤ) - 52)) = 5404319552844596 := by
    rw [harg]
    exact py_round_tie_odd 5404319552844595 (by decide)
  rw [fl_eval _ 3 5404319552844596 (by norm_num) (by norm_num) (by norm_num) hr]
  norm_num

theorem fl_sum_0_3_24 :
    fl ((23643898043695107 : ℚ) / 2251799813685248) = 5910974510923777 / 562949953421312 := by
  have hr : py_round ((23643898043695107 : ℚ) / 2251799813685248 /
      (2 : ℚ) ^ ((3 : ℤ) - 52)) = 5910974510923777 :=
    py_round_high _ _ (by norm_num) (by norm_num)
  rw [fl_eval _ 3 5910974510923777 (by norm_num) (by norm_num) (by norm_num) hr]
  norm_num

theorem py_round_79 : py_round (79 : ℚ) = 79 :=
  py_round_low _ _ (by norm_num) (by norm_num)

theorem py_round_10_5_plus : py_round ((5910974510923777 : ℚ) / 562949953421312) = 11 :=
  py_round_high _ _ (by norm_num) (by norm_num)

theorem foldl_weight_eq (issues : List Issue) (n : Nat) :
    issues.foldl (fun acc i => acc + severity_weight (py_lower i.severity)) n =
      n + (issues.map (fun i => severity_weight (py_lower i.severity))).sum := by
  induction issues generalizing n with
  | nil => simp
  | cons x xs ih => simp [ih, Nat.add_assoc]

theorem key_merge_category (x : Issue) (c : String) :
    create_issue_key (merge_category x c) = create_issue_key x := rfl

theorem keys_merge_into_first (l : List Issue) (key c : String) :
    (merge_into_first key c l).map create_issue_key = l.map create_issue_key := by
  induction l with
  | nil => rfl
  | cons x xs ih =>
    simp only [merge_into_first]
    by_cases h : create_issue_key x = key
    · simp [h, key_merge_category]
    · simp [h, ih]

theorem dedup_fold_invariant (pairs : List (String × Issue)) (acc : List Issue × List String)
    (h1 : acc.2 = acc.1.map create_issue_key) (h2 : acc.2.Nodup) :
    (pairs.foldl dedup_step acc).2 = (pairs.foldl dedup_step acc).1.map create_issue_key ∧
      (pairs.foldl dedup_step acc).2.Nodup := by
  induction pairs generalizing acc with
  | nil => exact ⟨h1, h2⟩
  | cons p rest ih =>
    simp only [List.foldl_cons]
    by_cases hk : create_issue_key { p.2 with category := p.1 } ∈ acc.2
    · have hstep : dedup_step acc p =
          (merge_into_first (create_issue_key { p.2 with category := p.1 }) p.1 acc.1, acc.2) := by
        simp only [dedup_step, if_pos hk]
      rw [hstep]
      exact ih _ (by simp [keys_merge_into_first, h1]) h2
    · have hstep : dedup_step acc p =
          (acc.1 ++ [{ p.2 with category := p.1 }],
           acc.2 ++ [create_issue_key { p.2 with category := p.1 }]) := by
        simp only [dedup_step, if_neg hk]
      rw [hstep]
      refine ih _ (by simp [h1]) ?_
      simp [List.nodup_append, h2, hk]

theorem dedup_fold_on_nodup (l : List Issue) (acc : List Issue × List String)
    (h1 : acc.2 = acc.1.map create_issue_key)
    (h2 : (acc.2 ++ l.map create_issue_key).Nodup) :
    (l.map (fun i => (i.category, i))).foldl dedup_step acc =
      (acc.1 ++ l, acc.2 ++ l.map create_issue_key) := by
  induction l generalizing acc with
  | nil => simp
  | cons x xs ih =>
    simp only [List.map_cons, List.foldl_cons]
    have hx : ({ x with category := x.category } : Issue) = x := rfl
    have hnotin : create_issue_key x ∉ acc.2 := by
      intro hmem
      exact (List.nodup_append.mp h2).2.2 hmem (List.mem_cons_self _ _)
    have hstep : dedup_step acc (x.category, x) =
        (acc.1 ++ [x], acc.2 ++ [create_issue_key x]) := by
      simp only [dedup_step, hx, if_neg hnotin]
    rw [hstep, ih (acc.1 ++ [x], acc.2 ++ [create_issue_key x]) (by simp [h1])
      (by simpa [List.append_assoc] using h2)]
    simp

/-! ### Claim theorems -/

/-- C5: the per-category score of `BaseAnalyzer._calculate_score` starts at
100, subtracts the per-severity deductions (critical 20, high 10, medium 5,
low 2), halves the cost of every deduction point beyond a cumulative total of
50, floors at 0, and rounds to the nearest integer, i.e. it coincides with
the spec formula `spec_category_score` on every issue list. -/
theorem calculate_score_matches_spec (issues : List Issue) :
    calculate_score issues = spec_category_score issues := by
  simp only [calculate_score, spec_category_score, foldl_weight_eq, Nat.zero_add]
  set d := (issues.map fun i => severity_weight (py_lower i.severity)).sum with hd
  by_cases h : 50 < d
  · have h50 : (50 : ℚ) ≤ (d : ℚ) := by exact_mod_cast h.le
    rw [if_pos h, min_eq_right h50]
    congr 2
    ring
  · have h50 : (d : ℚ) ≤ 50 := by exact_mod_cast Nat.not_lt.mp h
    rw [if_neg h, min_eq_left h50]
    congr 2
    ring

/-- C4 counterexample: the overall score does not always equal
`round(0.30 * security + 0.30 * code_quality + 0.40 * ui_ux)` computed
exactly.  At the reachable score triple (0, 3, 24) the program's binary64
accumulation carries rounding error past the exact tie 10.5: the float sum
is 10.500000000000001776… and rounds to 11, while the exact formula gives
round(10.5) = 10 under round-half-to-even. -/
theorem overall_score_float_divergence :
    calculate_overall_score
        [("security", ⟨0, [], [], none⟩), ("code_quality", ⟨3, [], [], none⟩),
         ("ui_ux", ⟨24, [], [], none⟩)] = 11 ∧
    spec_overall_score 0 3 24 = 10 ∧
    calculate_overall_score
        [("security", ⟨0, [], [], none⟩), ("code_quality", ⟨3, [], [], none⟩),
         ("ui_ux", ⟨24, [], [], none⟩)] ≠ spec_overall_score 0 3 24 := by
  have e1 : calculate_overall_score
      [("security", ⟨0, [], [], none⟩), ("code_quality", ⟨3, [], [], none⟩),
       ("ui_ux", ⟨24, [], [], none⟩)] =
      py_round (fl (fl (fl ((0 : ℚ) + fl (fl (((0 : ℤ) : ℚ)) * fl (30 / 100))) +
        fl (fl (((3 : ℤ) : ℚ)) * fl (30 / 100))) +
        fl (fl (((24 : ℤ) : ℚ)) * fl (40 / 100)))) := rfl
  have h11 : calculate_overall_score
      [("security", ⟨0, [], [], none⟩), ("code_quality", ⟨3, [], [], none⟩),
       ("ui_ux", ⟨24, [], [], none⟩)] = 11 := by
    rw [e1, fl_D030, fl_D040]
    norm_num [fl_zero, fl_3, fl_24, fl_prod_3_030, fl_repr_09, fl_prod_24_040,
      fl_sum_0_3_24, py_round_10_5_plus]
  have h10 : spec_overall_score 0 3 24 = 10 := by
    unfold spec_overall_score
    rw [show (30 : ℚ) / 100 * ((0 : ℤ) : ℚ) + 30 / 100 * ((3 : ℤ) : ℚ) +
        40 / 100 * ((24 : ℤ) : ℚ) = ((10 : ℤ) : ℚ) + 1 / 2 by push_cast; norm_num]
    exact py_round_tie_even 10 (by decide)
  exact ⟨h11, h10, by rw [h11, h10]; decide⟩

/-- C4 amended: the overall score equals Python `round` of the binary64
accumulation of the weighted scores with the double weights 0.30, 0.30,
0.40 (`spec_float_overall_score`); for the scores 80 / 90 / 70 the float
evaluation agrees with the exact formula
`round(0.30 * security + 0.30 * code_quality + 0.40 * ui_ux)` and both
give 79. -/
theorem overall_score_float_accumulation (r1 r2 r3 : AnalyzerResult) :
    calculate_overall_score [("security", r1), ("code_quality", r2), ("ui_ux", r3)] =
        spec_float_overall_score r1.score r2.score r3.score ∧
      calculate_overall_score
        [("security", ⟨80, [], [], none⟩), ("code_quality", ⟨90, [], [], none⟩),
         ("ui_ux", ⟨70, [], [], none⟩)] = 79 ∧
      spec_overall_score 80 90 70 = 79 := by
  refine ⟨rfl, ?_, ?_⟩
  · have e1 : calculate_overall_score
        [("security", ⟨80, [], [], none⟩), ("code_quality", ⟨90, [], [], none⟩),
         ("ui_ux", ⟨70, [], [], none⟩)] =
        py_round (fl (fl (fl ((0 : ℚ) + fl (fl (((80 : ℤ) : ℚ)) * fl (30 / 100))) +
          fl (fl (((90 : ℤ) : ℚ)) * fl (30 / 100))) +
          fl (fl (((70 : ℤ) : ℚ)) * fl (40 / 100)))) := rfl
    rw [e1, fl_D030, fl_D040]
    norm_num [fl_80, fl_90, fl_70, fl_prod_80_030, fl_prod_90_030, fl_prod_70_040,
      fl_24, fl_51, fl_79, py_round_79]
  · unfold spec_overall_score
    exact py_round_congr _ 79 (by push_cast; norm_num)

/-- C6: the two issues titled "XSS via innerHTML" and "XSS using innerHTML",
both on line 12, normalize to the same issue key (the connector words are
stripped, the key carrying the line number), and deduplication merges them
into one issue carrying both categories instead of listing them twice. -/
theorem xss_issues_merge :
    create_issue_key
        { severity := "high", title := "XSS via innerHTML", description := "",
          line_number := some 12, code_snippet := none, recommendation := "",
          category := "", categories := none } =
      create_issue_key
        { severity := "high", title := "XSS using innerHTML", description := "",
          line_number := some 12, code_snippet := none, recommendation := "",
          category := "", categories := none } ∧
    create_issue_key
        { severity := "high", title := "XSS via innerHTML", description := "",
          line_number := some 12, code_snippet := none, recommendation := "",
          category := "", categories := none } = "xss  innerhtml|line:12" ∧
    dedup_issues
        [("security",
          { severity := "high", title := "XSS via innerHTML", description := "",
            line_number := some 12, code_snippet := none, recommendation := "",
            category := "", categories := none }),
         ("code_quality",
          { severity := "high", title := "XSS using innerHTML", description := "",
            line_number := some 12, code_snippet := none, recommendation := "",
            category := "", categories := none })] =
      [{ severity := "high", title := "XSS via innerHTML", description := "",
         line_number := some 12, code_snippet := none, recommendation := "",
         category := "security", categories := some ["security", "code_quality"] }] := by
  decide

/-- C7: deduplication always produces pairwise-distinct issue keys (a key
collision merges, it never duplicates), and running the deduplication again
on its own output returns that output unchanged. -/
theorem dedup_nodup_and_idempotent (pairs : List (String × Issue)) :
    (dedup_issues pairs).Pairwise (fun a b => create_issue_key a ≠ create_issue_key b) ∧
      dedup_issues ((dedup_issues pairs).map (fun i => (i.category, i))) =
        dedup_issues pairs := by
  obtain ⟨h1, h2⟩ := dedup_fold_invariant pairs ([], []) rfl List.nodup_nil
  have hkeys : ((pairs.foldl dedup_step ([], [])).1.map create_issue_key).Nodup := h1 ▸ h2
  have hkeys' : ((dedup_issues pairs).map create_issue_key).Nodup := hkeys
  constructor
  · exact List.pairwise_map.mp hkeys
  · have h3 := dedup_fold_on_nodup (dedup_issues pairs) ([], []) rfl (by simpa using hkeys')
    have h4 := congrArg Prod.fst h3
    simpa using h4

/-- C1: the background task's keyword call of `analyze_file` supplies
`progress_callback`, which the orchestrator does not accept, so the keyword
binding fails, the resulting `TypeError` lands in the task's outer handler,
and every run ends with status "failed", progress 0, no stored result, and
with no analyzer ever having executed. -/
theorem background_call_always_fails (orchestrator_outcome : AnalysisResult) :
    kwargs_bind analyze_file_param_names background_call_kwarg_names = false ∧
    (run_analysis_background initial_status_entry orchestrator_outcome).1.status = "failed" ∧
    (run_analysis_background initial_status_entry orchestrator_outcome).1.progress = 0 ∧
    (run_analysis_background initial_status_entry orchestrator_outcome).1.result = none ∧
    (run_analysis_background initial_status_entry orchestrator_outcome).2 = false :=
  ⟨rfl, rfl, rfl, rfl, rfl⟩

/-- C2: whichever single analyzer fails while the other two succeed, the
report still carries all three `score_breakdown` entries, the failing
category's entry has score 0 and exactly one issue, counted as one critical
issue, and the substituted fallback holds exactly one synthetic critical
issue naming the failed category and embedding the failure reason; the two
surviving categories keep their own scores, so the run is not aborted. -/
theorem single_analyzer_failure_isolated (err fp : String) (m : FileMetadata)
    (a b : AnalyzerResult) :
    failing_category_ok (analyze_file fp m (.error err) (.ok a) (.ok b)) "security"
        "Security Analysis Failed" err ∧
    breakdown_score (analyze_file fp m (.error err) (.ok a) (.ok b)) "code_quality" =
        some a.score ∧
    breakdown_score (analyze_file fp m (.error err) (.ok a) (.ok b)) "ui_ux" =
        some b.score ∧
    failing_category_ok (analyze_file fp m (.ok a) (.error err) (.ok b)) "code_quality"
        "Code Quality Analysis Failed" err ∧
    breakdown_score (analyze_file fp m (.ok a) (.error err) (.ok b)) "security" =
        some a.score ∧
    failing_category_ok (analyze_file fp m (.ok a) (.ok b) (.error err)) "ui_ux"
        "Ui Ux Analysis Failed" err ∧
    breakdown_score (analyze_file fp m (.ok a) (.ok b) (.error err)) "security" =
        some a.score :=
  ⟨⟨rfl, rfl, rfl, rfl, _, rfl, rfl, rfl, rfl⟩, rfl, rfl,
   ⟨rfl, rfl, rfl, rfl, _, rfl, rfl, rfl, rfl⟩, rfl,
   ⟨rfl, rfl, rfl, rfl, _, rfl, rfl, rfl, rfl⟩, rfl⟩

/-- C8: when the aggregation steps raise an unexpected error, `analyze_file`
still returns a well-formed report rather than propagating: the minimal
error report with overall score 0, exactly one synthetic critical
"Analysis System Error" issue, and the raw error text in the summary. -/
theorem aggregation_failure_degrades (fp : String) (m : FileMetadata) (err : String) :
    analyze_file_guarded fp m (Except.error err) = create_error_result fp m err ∧
    (analyze_file_guarded fp m (Except.error err)).overall_score = 0 ∧
    (analyze_file_guarded fp m (Except.error err)).total_issues = 1 ∧
    (analyze_file_guarded fp m (Except.error err)).critical_issues = 1 ∧
    (∃ i, (analyze_file_guarded fp m (Except.error err)).issues = [i] ∧
      i.severity = "critical" ∧ i.title = "Analysis System Error" ∧
      i.description = "The analysis system encountered a critical error: " ++ err) ∧
    (analyze_file_guarded fp m (Except.error err)).summary =
      "Analysis failed due to system error: " ++ err :=
  ⟨rfl, rfl, rfl, rfl, ⟨_, rfl, rfl, rfl, rfl⟩, rfl⟩

/-- C9: the issue list of every aggregated report is sorted by the severity
order critical, high, medium, low (the sort is the stable one the source's
`list.sort` performs), and the degraded error report's single-issue list is
trivially so; hence no low-severity issue ever precedes a critical one. -/
theorem report_issues_sorted :
    (∀ (results : List (String × AnalyzerResult)) (fp : String) (m : FileMetadata),
       ((aggregate_results results fp m).issues).Sorted issue_severity_le) ∧
    (∀ (fp : String) (m : FileMetadata) (err : String),
       ((analyze_file_guarded fp m (Except.error err)).issues).Sorted issue_severity_le) := by
  constructor
  · intro results fp m
    show (List.insertionSort issue_severity_le _).Sorted issue_severity_le
    exact List.sorted_insertionSort issue_severity_le _
  · intro fp m err
    exact List.sorted_singleton _

/-- C10: on each analyzer completion that advances the maximum, the written
progress is `10 + floor(analyzers_completed / total_analyzers * 80)`,
independent of which analyzer finished; with 2 of 3 analyzers complete the
target is 63. -/
theorem completion_progress_target (ps : ProgressState) (e : StatusEntry)
    (analyzer_name : String)
    (haccept : ps.max_progress <
      analyzer_completion_target (ps.analyzers_completed + 1) ps.total_analyzers) :
    completion_target_spec ps e analyzer_name ∧ analyzer_completion_target 2 3 = 63 := by
  have hwrite : ∀ nm, (update_analyzer_completion ps e nm).2.progress =
      analyzer_completion_target (ps.analyzers_completed + 1) ps.total_analyzers := by
    intro nm
    simp only [update_analyzer_completion, if_pos haccept]
  refine ⟨⟨?_, fun other => (hwrite other).trans (hwrite analyzer_name).symm⟩, by decide⟩
  rw [hwrite]
  have hfloor : ((ps.analyzers_completed + 1 : ℚ)) / (ps.total_analyzers : ℚ) * 80 =
      (((ps.analyzers_completed + 1) * 80 : ℕ) : ℚ) / (ps.total_analyzers : ℚ) := by
    push_cast
    ring
  rw [analyzer_completion_target, hfloor, Nat.floor_div_nat, Nat.floor_natCast]

/-- Witness for C10 at a concrete state: one of three analyzers already done,
running maximum 10, the second completion writes 63. -/
theorem completion_progress_target_witness :
    completion_target_spec ⟨10, 1, 3⟩ initial_status_entry "Security" ∧
      analyzer_completion_target 2 3 = 63 :=
  completion_progress_target ⟨10, 1, 3⟩ initial_status_entry "Security" (by decide)

/-- C3 counterexample: the claim that the observed progress percentage is
non-decreasing over every report()/completed() sequence fails on the code:
starting from a fresh run, reporting 95 and then the reserved checkpoint 92
is accepted by the update rule and lowers the observed progress from 95 to
92 without any failure involved. -/
theorem progress_can_decrease :
    (run_events (initial_progress_state, initial_status_entry)
        [ProgressEvent.report 95 "Calculating final scores...",
         ProgressEvent.report 92 "Aggregating analysis results..."]).2.progress <
      (run_events (initial_progress_state, initial_status_entry)
        [ProgressEvent.report 95 "Calculating final scores..."]).2.progress := by
  decide

/-- C3 amended: for a progress state whose stored entry agrees with the
running maximum, every report()/completed() update keeps the observed
progress non-decreasing, except that reporting a reserved checkpoint value
(92, 95 or 100) not exceeding the running maximum overwrites progress with
that lower checkpoint; explicit failure resets progress to 0. -/
theorem progress_monotone_amended :
    (∀ (s : ProgressState × StatusEntry) (ev : ProgressEvent),
       s.2.progress = s.1.max_progress → progress_step_spec s ev) ∧
    (∀ (e : StatusEntry) (msg : String), (fail_entry e msg).progress = 0) := by
  constructor
  · rintro ⟨ps, e⟩ ev hsync
    have hsync' : e.progress = ps.max_progress := hsync
    cases ev with
    | report p m =>
      by_cases hc : ps.max_progress < p ∨ p = 92 ∨ p = 95 ∨ p = 100
      · have happ : (apply_event (ps, e) (.report p m)).2.progress = p := by
          simp only [apply_event, update_progress, if_pos hc]
        rcases hc with hlt | hcp
        · left
          rw [happ]
          show e.progress ≤ p
          omega
        · by_cases hle : p ≤ ps.max_progress
          · exact Or.inr ⟨p, m, rfl, hcp, hle⟩
          · left
            rw [happ]
            show e.progress ≤ p
            omega
      · left
        have : apply_event (ps, e) (.report p m) = (ps, e) := by
          simp only [apply_event, update_progress, if_neg hc]
        rw [this]
    | completed n =>
      left
      show e.progress ≤ (update_analyzer_completion ps e n).2.progress
      simp only [update_analyzer_completion]
      by_cases hacc : ps.max_progress <
          analyzer_completion_target (ps.analyzers_completed + 1) ps.total_analyzers
      · rw [if_pos hacc]
        show e.progress ≤
          analyzer_completion_target (ps.analyzers_completed + 1) ps.total_analyzers
        omega
      · rw [if_neg hacc]
  · intro e msg
    rfl

/-- Witness for the amended C3: a fresh in-sync state accepting an ordinary
numeric update, and a failure resetting progress to 0. -/
theorem progress_monotone_amended_witness :
    progress_step_spec (initial_progress_state, initial_status_entry)
        (ProgressEvent.report 50 "halfway") ∧
      (fail_entry initial_status_entry "boom").progress = 0 :=
  ⟨progress_monotone_amended.1 (initial_progress_state, initial_status_entry)
      (ProgressEvent.report 50 "halfway") rfl,
   progress_monotone_amended.2 initial_status_entry "boom"⟩

end CanvaAppReviewer
